import Mathlib

/-!
Shallow embedding of the `beancount-language-server` entry-point crates
(`crates/lsp/src/main.rs` and `crates/pylsp/src/lib.rs`) and proofs about
them.  Rust functions become Lean functions; process-global effects
(stdout, stderr, the tracing subscriber, the exit code) become explicit
fields of result records; the environment, the filesystem and the opaque
delegated server are oracles passed in as parameters.
-/

namespace Lsp

/-- Model of `tracing::level_filters::LevelFilter` (the six variants the
program uses). -/
inductive LevelFilter where
  | OFF
  | ERROR
  | WARN
  | INFO
  | DEBUG
  | TRACE
deriving DecidableEq, Repr

/-- Model of Rust `str::to_lowercase` restricted to the ASCII range
(Lean's `Char.toLower` maps `A`..`Z` to `a`..`z` and leaves every other
character unchanged), which is exact on the character sets the program
compares against. -/
def rust_to_lowercase (s : String) : String :=
  String.mk (s.data.map Char.toLower)

/-- The warning text `parse_log_level` prints to stderr for an
unrecognized level string (source `main.rs`, the `_` arm of the match). -/
def invalid_level_message (level_str : String) : String :=
  "Invalid log level \x27" ++ level_str ++
    "\x27. Using \x27info\x27 as default. Valid levels: trace, debug, info, warn, error, off"

/-- Embedding of `parse_log_level` (source `main.rs` lines 96-111).  The
Rust function returns a `LevelFilter` and, on the fallthrough arm, prints
a warning with `eprintln!`; the embedding returns the level paired with
the list of lines written to stderr. -/
def parse_log_level (level_str : String) : LevelFilter × List String :=
  let lower := rust_to_lowercase level_str
  if lower = ("trace") then (LevelFilter.TRACE, [])
  else if lower = ("debug") then (LevelFilter.DEBUG, [])
  else if lower = ("info") then (LevelFilter.INFO, [])
  else if lower = ("warn") then (LevelFilter.WARN, [])
  else if lower = ("error") then (LevelFilter.ERROR, [])
  else if lower = ("off") then (LevelFilter.OFF, [])
  else (LevelFilter.INFO, [invalid_level_message level_str])

/-- Two strings are case variants of each other when they agree after
(ASCII) lowercasing of every character. -/
def isCaseVariantOf (s t : String) : Bool :=
  rust_to_lowercase s = rust_to_lowercase t

/-- Model of `tracing_subscriber::filter::Directive`: the program only
ever builds the directive obtained from a `LevelFilter`. -/
inductive Directive where
  | level (l : LevelFilter)
deriving DecidableEq, Repr

/-- Model of `tracing_subscriber::EnvFilter` as its list of directives. -/
structure EnvFilter where
  directives : List Directive
deriving DecidableEq, Repr

/-- Model of `EnvFilter::default()`: the empty filter.  Unlike
`EnvFilter::from_default_env()`, it does not consult the process
environment (no `RUST_LOG` lookup), so it takes no environment input. -/
def EnvFilter.empty : EnvFilter :=
  { directives := [] }

/-- Model of `EnvFilter::add_directive`. -/
def EnvFilter.add_directive (f : EnvFilter) (d : Directive) : EnvFilter :=
  { directives := f.directives ++ [d] }

/-- The two writers the program can wrap in a `BoxMakeWriter`: the opened
log file (identified by its path) or the standard-error stream. -/
inductive Writer where
  | file (path : String)
  | stderr
deriving DecidableEq, Repr

/-- Observable configuration of the installed `tracing_subscriber::fmt`
subscriber: the writer, the env filter, and the formatting switches set
by `setup_logging`. -/
structure Subscriber where
  writer : Writer
  filter : EnvFilter
  with_target : Bool
  with_thread_ids : Bool
  with_level : Bool
deriving DecidableEq, Repr

/-- Observable outcome of `setup_logging`: the lines printed to stderr,
the process-wide subscriber state after the call, and whether `.init()`
panicked because a subscriber was already installed. -/
structure SetupResult where
  stderr : List String
  state : Option Subscriber
  panicked : Bool
deriving DecidableEq, Repr

/-- Embedding of the `level` computation in `setup_logging` (source
`main.rs` lines 62-65): parse the argument when present, default to
`INFO` when absent. -/
def resolve_level (log_level_arg : Option String) : LevelFilter × List String :=
  match log_level_arg with
  | some level_str => parse_log_level level_str
  | none => (LevelFilter.INFO, [])

/-- Embedding of the `file` computation in `setup_logging` (source
`main.rs` lines 67-79).  The filesystem is an oracle `openRes` mapping a
path to `none` when `OpenOptions::new().create(true).append(true).open`
succeeds and to `some e` (the error's display text) when it fails.
Returns the opened path (if any) and the `eprintln!` output. -/
def open_log_file (openRes : String → Option String) (log_file : Option String) :
    Option String × List String :=
  match log_file with
  | some path =>
    match openRes path with
    | none => (some path, [("Logging to file: ") ++ path])
    | some e =>
      (none,
       [("Failed to open log file \x27") ++ path ++ ("\x27: ") ++ e ++
         (". Falling back to stderr.")])
  | none => (none, [])

/-- Embedding of `setup_logging` (source `main.rs` lines 61-94).  `env`
is the process environment, available to any library call that would
read it; the source builds its filter with `EnvFilter::default()`, which
ignores it.  `st` is the process-wide subscriber state before the call:
`tracing_subscriber::fmt().…​.init()` installs the new subscriber when
none is present and panics (leaving the old one in place) when one
already is. -/
def setup_logging (env : List (String × String)) (openRes : String → Option String)
    (st : Option Subscriber) (log_file : Option String) (log_level_arg : Option String) :
    SetupResult :=
  let lv := resolve_level log_level_arg
  let fo := open_log_file openRes log_file
  let writer :=
    match fo.1 with
    | some path => Writer.file path
    | none => Writer.stderr
  let filter := EnvFilter.empty.add_directive (Directive.level lv.1)
  let sub : Subscriber :=
    { writer := writer, filter := filter,
      with_target := false, with_thread_ids := true, with_level := true }
  { stderr := lv.2 ++ fo.2,
    state :=
      match st with
      | some old => some old
      | none => some sub,
    panicked := st.isSome }

/-- Model of the `clap::ArgMatches` the program reads: for the two
optional-value arguments, `none` means absent, `some none` means present
without a value, and `some (some v)` means present with value `v`. -/
structure ArgMatches where
  stdio : Bool
  version : Bool
  log : Option (Option String)
  log_file : Option String
  log_level : Option (Option String)
deriving DecidableEq, Repr

/-- The matches produced when no argument is given. -/
def ArgMatches.init : ArgMatches :=
  { stdio := false, version := false, log := none, log_file := none, log_level := none }

/-- Model of `ArgMatches::args_present`: some argument appeared on the
command line. -/
def ArgMatches.args_present (m : ArgMatches) : Bool :=
  m.stdio || m.version || m.log.isSome || m.log_file.isSome || m.log_level.isSome

/-- Parse errors of the configured `clap::Command`; `get_matches` renders
them and exits the process (status 2 for errors, 0 for help display). -/
inductive ClapError where
  | unknownArg (tok : String)
  | missingValue (flag : String)
  | duplicateArg (flag : String)
  | displayHelp
deriving DecidableEq, Repr

/-- When `pre` is a prefix of `tok`, the remainder of `tok` after it;
used for the `--flag=value` argument form. -/
def chopFlagEq (pre tok : String) : Option String :=
  if pre.data.isPrefixOf tok.data then some (String.mk (tok.data.drop pre.data.length))
  else none

/-- A token that clap will not consume as the value of an optional-value
argument because it looks like another flag. -/
def isFlagLike (tok : String) : Bool :=
  match tok.data with
  | c :: _ => c = '-'
  | [] => false

/-- Token walk of the `clap::Command` configured in `main` (source
`main.rs` lines 10-18): `--stdio` and `-v`/`--version` are boolean
flags, `--log-file` requires a value, `--log` and `--log-level` take an
optional value (consuming the next token when it is not flag-like, or an
attached `=value`), repeated arguments are rejected, and anything else
is an unexpected argument; clap's auto-added `-h`/`--help` displays help. -/
def parseArgsGo : List String → ArgMatches → Except ClapError ArgMatches
  | [], m => Except.ok m
  | tok :: rest, m =>
    if tok = ("--help") || tok = ("-h") then
      Except.error ClapError.displayHelp
    else if tok = ("--stdio") then
      if m.stdio then Except.error (ClapError.duplicateArg ("stdio"))
      else parseArgsGo rest { m with stdio := true }
    else if tok = ("-v") || tok = ("--version") then
      if m.version then Except.error (ClapError.duplicateArg ("version"))
      else parseArgsGo rest { m with version := true }
    else if tok = ("--log-file") then
      if m.log_file.isSome then Except.error (ClapError.duplicateArg ("log-file"))
      else
        match rest with
        | [] => Except.error (ClapError.missingValue ("log-file"))
        | v :: rest2 =>
          if isFlagLike v then Except.error (ClapError.missingValue ("log-file"))
          else parseArgsGo rest2 { m with log_file := some v }
    else if (chopFlagEq ("--log-file=") tok).isSome then
      if m.log_file.isSome then Except.error (ClapError.duplicateArg ("log-file"))
      else parseArgsGo rest { m with log_file := chopFlagEq ("--log-file=") tok }
    else if tok = ("--log-level") then
      if m.log_level.isSome then Except.error (ClapError.duplicateArg ("log-level"))
      else
        match rest with
        | [] => Except.ok { m with log_level := some none }
        | v :: rest2 =>
          if isFlagLike v then parseArgsGo (v :: rest2) { m with log_level := some none }
          else parseArgsGo rest2 { m with log_level := some (some v) }
    else if (chopFlagEq ("--log-level=") tok).isSome then
      if m.log_level.isSome then Except.error (ClapError.duplicateArg ("log-level"))
      else parseArgsGo rest { m with log_level := some (chopFlagEq ("--log-level=") tok) }
    else if tok = ("--log") then
      if m.log.isSome then Except.error (ClapError.duplicateArg ("log"))
      else
        match rest with
        | [] => Except.ok { m with log := some none }
        | v :: rest2 =>
          if isFlagLike v then parseArgsGo (v :: rest2) { m with log := some none }
          else parseArgsGo rest2 { m with log := some (some v) }
    else if (chopFlagEq ("--log=") tok).isSome then
      if m.log.isSome then Except.error (ClapError.duplicateArg ("log"))
      else parseArgsGo rest { m with log := some (chopFlagEq ("--log=") tok) }
    else if tok = ("--") then
      match rest with
      | [] => Except.ok m
      | v :: _ => Except.error (ClapError.unknownArg v)
    else Except.error (ClapError.unknownArg tok)

/-- Model of `Command::…​.get_matches()` on a given argument list (the
process arguments after the program name). -/
def parseArgs (argv : List String) : Except ClapError ArgMatches :=
  parseArgsGo argv ArgMatches.init

/-- The fixed default log file name the deprecated `--log` switch
selects (source `main.rs` line 27). -/
def default_log_file : String :=
  "beancount-language-server.log"

/-- Embedding of the `log_file` resolution in `main` (source `main.rs`
lines 25-31): `get_one("log-file")` or else, when `--log` is present,
the fixed default file name. -/
def resolve_log_file (m : ArgMatches) : Option String :=
  m.log_file.orElse (fun _ => if m.log.isSome then some default_log_file else none)

/-- Model of `matches.get_one::<String>("log")`: the value attached to
the deprecated `--log` switch, when it was given one. -/
def ArgMatches.get_one_log (m : ArgMatches) : Option String :=
  match m.log with
  | some (some v) => some v
  | _ => none

/-- Model of `matches.get_one::<String>("log-level")`: the value of the
dedicated severity option, when it was given one. -/
def ArgMatches.get_one_log_level (m : ArgMatches) : Option String :=
  match m.log_level with
  | some (some v) => some v
  | _ => none

/-- Embedding of the `log_level` resolution in `main` (source `main.rs`
lines 33-35): `get_one("log-level")` or else `get_one("log")`. -/
def resolve_log_level (m : ArgMatches) : Option String :=
  m.get_one_log_level.orElse (fun _ => m.get_one_log)

/-- Oracles for everything outside this core: the compile-time crate
version, the process environment, the filesystem's answer to opening a
log file for append (`none` = success, `some e` = failure text), and the
outcome of the opaque delegated `run_server` call. -/
structure World where
  version : String
  env : List (String × String)
  openRes : String → Option String
  serverResult : Except String Unit

/-- Severity of an emitted `tracing` record (model of `tracing::Level`). -/
inductive Level where
  | ERROR
  | WARN
  | INFO
  | DEBUG
  | TRACE
deriving DecidableEq, Repr

/-- The four `tracing` macro calls `main` performs, with the data each
one interpolates. -/
inductive Record where
  | startup (version : String)
  | cmdArgs (stdio : Bool) (log_to_file : String) (log_level : Option String)
  | shutdownOk
  | serverFailed (msg : String)
deriving DecidableEq, Repr

/-- Observable outcome of one run of the process entry point: stdout
lines, stderr lines, the installed subscriber, the tracing records
submitted (with their severities), whether the delegated server was
invoked, and the process exit status. -/
structure MainResult where
  stdout : List String
  stderr : List String
  state : Option Subscriber
  records : List (Level × Record)
  serverInvoked : Bool
  exitCode : Nat
deriving DecidableEq, Repr

/-- Rendering of a clap parse error (abridged; the exact clap wording is
not load-bearing for any property below). -/
def clap_error_message : ClapError → String
  | ClapError.unknownArg tok => ("error: unexpected argument \x27") ++ tok ++ ("\x27 found")
  | ClapError.missingValue flag =>
    ("error: a value is required for \x27--") ++ flag ++ ("\x27 but none was supplied")
  | ClapError.duplicateArg flag =>
    ("error: the argument \x27--") ++ flag ++ ("\x27 cannot be used multiple times")
  | ClapError.displayHelp => ("")

/-- Abridged stand-in for the clap-generated help text (its content is
produced by the library, not by this repository). -/
def clap_help_text : String :=
  "Usage: beancount-language-server [OPTIONS]"

/-- Model of `clap::Error::exit()` as called inside `get_matches`: help
display prints to stdout and exits 0; every other parse error prints to
stderr and exits 2.  Nothing else has happened yet. -/
def clap_exit (e : ClapError) : MainResult :=
  match e with
  | ClapError.displayHelp =>
    { stdout := [clap_help_text], stderr := [], state := none, records := [],
      serverInvoked := false, exitCode := 0 }
  | err =>
    { stdout := [], stderr := [clap_error_message err], state := none, records := [],
      serverInvoked := false, exitCode := 2 }

/-- Embedding of `main` (source `main.rs` lines 9-59): parse arguments
(clap exits on a parse error), short-circuit on the version flag,
resolve the log destination and severity, set up logging (the
process-wide subscriber state starts out empty), emit the startup info
and debug records, invoke the delegated server, and map its outcome to
the exit status (0 with a shutdown info record on success, 1 with an
error record carrying the failure text on failure). -/
def main (w : World) (argv : List String) : MainResult :=
  match parseArgs argv with
  | Except.error e => clap_exit e
  | Except.ok mtc =>
    if mtc.args_present && mtc.version then
      { stdout := [w.version], stderr := [], state := none, records := [],
        serverInvoked := false, exitCode := 0 }
    else
      let log_file := resolve_log_file mtc
      let log_level := resolve_log_level mtc
      let setup := setup_logging w.env w.openRes none log_file log_level
      let startupRecords : List (Level × Record) :=
        [(Level.INFO, Record.startup w.version),
         (Level.DEBUG, Record.cmdArgs mtc.stdio (log_file.getD ("stderr")) log_level)]
      match w.serverResult with
      | Except.ok _ =>
        { stdout := [], stderr := setup.stderr, state := setup.state,
          records := startupRecords ++ [(Level.INFO, Record.shutdownOk)],
          serverInvoked := true, exitCode := 0 }
      | Except.error e =>
        { stdout := [], stderr := setup.stderr, state := setup.state,
          records := startupRecords ++ [(Level.ERROR, Record.serverFailed e)],
          serverInvoked := true, exitCode := 1 }

end Lsp

namespace BeancountLanguageServer

/-- Modelled from the spec: the library entry point
`beancount_language_server::main` (in `crates/lsp/src/lib.rs`, which is
not under src/; only its caller `crates/pylsp/src/lib.rs` is).  Per the
spec (sections 4.4 and 6) it performs the identical argument resolution,
logging setup, server invocation and status mapping as the standalone
entry point, and hands the integer status back to its caller instead of
terminating the process; the returned `MainResult`'s `exitCode` is that
status. -/
def main (w : Lsp.World) (args : List String) : Lsp.MainResult :=
  Lsp.main w args

end BeancountLanguageServer

namespace Pylsp

/-- Embedding of the pyo3 forwarder `main` (source
`crates/pylsp/src/lib.rs` lines 3-6): call the library entry point on
the argument list supplied by the host and wrap the returned status in
`Ok` (`PyResult<i32>` is modelled as `Except String Int`). -/
def main (w : Lsp.World) (args : List String) : Except String Int :=
  Except.ok (Int.ofNat (BeancountLanguageServer.main w args).exitCode)

end Pylsp

namespace Lsp

/-- Claim C1: every case variant of trace/debug/info/warn/error/off is
mapped by `parse_log_level` to the exact corresponding level with no
warning, and every other string yields `INFO` together with a warning on
stderr that names the invalid value. -/
theorem parse_log_level_case_insensitive_with_info_fallback (s : String) :
    (isCaseVariantOf s ("trace") = true → parse_log_level s = (LevelFilter.TRACE, [])) ∧
    (isCaseVariantOf s ("debug") = true → parse_log_level s = (LevelFilter.DEBUG, [])) ∧
    (isCaseVariantOf s ("info") = true → parse_log_level s = (LevelFilter.INFO, [])) ∧
    (isCaseVariantOf s ("warn") = true → parse_log_level s = (LevelFilter.WARN, [])) ∧
    (isCaseVariantOf s ("error") = true → parse_log_level s = (LevelFilter.ERROR, [])) ∧
    (isCaseVariantOf s ("off") = true → parse_log_level s = (LevelFilter.OFF, [])) ∧
    ((isCaseVariantOf s ("trace") = false ∧ isCaseVariantOf s ("debug") = false ∧
      isCaseVariantOf s ("info") = false ∧ isCaseVariantOf s ("warn") = false ∧
      isCaseVariantOf s ("error") = false ∧ isCaseVariantOf s ("off") = false) →
      parse_log_level s = (LevelFilter.INFO, [invalid_level_message s])) := by
  have e1 : rust_to_lowercase ("trace") = ("trace") := by decide
  have e2 : rust_to_lowercase ("debug") = ("debug") := by decide
  have e3 : rust_to_lowercase ("info") = ("info") := by decide
  have e4 : rust_to_lowercase ("warn") = ("warn") := by decide
  have e5 : rust_to_lowercase ("error") = ("error") := by decide
  have e6 : rust_to_lowercase ("off") = ("off") := by decide
  simp only [isCaseVariantOf, e1, e2, e3, e4, e5, e6, decide_eq_true_eq,
    decide_eq_false_iff_not]
  refine ⟨?_, ?_, ?_, ?_, ?_, ?_, ?_⟩
  · intro h; simp [parse_log_level, h]
  · intro h; simp [parse_log_level, h]
  · intro h; simp [parse_log_level, h]
  · intro h; simp [parse_log_level, h]
  · intro h; simp [parse_log_level, h]
  · intro h; simp [parse_log_level, h]
  · rintro ⟨h1, h2, h3, h4, h5, h6⟩
    simp [parse_log_level, h1, h2, h3, h4, h5, h6]

/-- Witness for C1 at concrete inputs: a mixed-case valid level and an
invalid level. -/
theorem parse_log_level_case_insensitive_with_info_fallback_witness :
    parse_log_level ("TrAcE") = (LevelFilter.TRACE, []) ∧
    parse_log_level ("123") = (LevelFilter.INFO, [invalid_level_message ("123")]) :=
  ⟨(parse_log_level_case_insensitive_with_info_fallback ("TrAcE")).1 (by decide),
   (parse_log_level_case_insensitive_with_info_fallback ("123")).2.2.2.2.2.2
     (by refine ⟨?_, ?_, ?_, ?_, ?_, ?_⟩ <;> decide)⟩

/-- Claim C2: when both the deprecated `--log` switch and the dedicated
flags are present, the log destination resolves to the `--log-file`
value (not the deprecated default file name), and the severity resolves
in the order: dedicated `--log-level` value if present, else the value
attached to the deprecated `--log` switch if present, else unset. -/
theorem dedicated_flags_take_precedence (m : ArgMatches) (p : String)
    (hf : m.log_file = some p) (hl : m.log.isSome = true) :
    resolve_log_file m = some p ∧
    (∀ v, m.get_one_log_level = some v → resolve_log_level m = some v) ∧
    (m.get_one_log_level = none →
      ∀ v, m.get_one_log = some v → resolve_log_level m = some v) ∧
    (m.get_one_log_level = none → m.get_one_log = none → resolve_log_level m = none) := by
  refine ⟨?_, ?_, ?_, ?_⟩
  · simp [resolve_log_file, hf]
  · intro v hv
    simp [resolve_log_level, hv, Option.some_orElse']
  · intro h v hv
    simp [resolve_log_level, h, hv, Option.none_orElse']
  · intro h hv
    simp [resolve_log_level, h, hv, Option.none_orElse']

/-- Witness for C2 at a concrete matches value carrying `--log-file
custom.log`, `--log debug` and `--log-level warn`. -/
theorem dedicated_flags_take_precedence_witness :
    resolve_log_file
        { stdio := false, version := false, log := some (some ("debug")),
          log_file := some ("custom.log"), log_level := some (some ("warn")) } =
      some ("custom.log") ∧
    resolve_log_level
        { stdio := false, version := false, log := some (some ("debug")),
          log_file := some ("custom.log"), log_level := some (some ("warn")) } =
      some ("warn") :=
  ⟨(dedicated_flags_take_precedence
      { stdio := false, version := false, log := some (some ("debug")),
        log_file := some ("custom.log"), log_level := some (some ("warn")) }
      ("custom.log") rfl rfl).1,
   (dedicated_flags_take_precedence
      { stdio := false, version := false, log := some (some ("debug")),
        log_file := some ("custom.log"), log_level := some (some ("warn")) }
      ("custom.log") rfl rfl).2.1 ("warn") rfl⟩

/-- Claim C3: on any argument list the parser accepts with the version
flag set, `main` prints only the version string, exits 0, installs no
subscriber, emits no record and never invokes the server. -/
theorem version_short_circuit (w : World) (argv : List String) (m : ArgMatches)
    (hp : parseArgs argv = Except.ok m) (hv : m.version = true) :
    main w argv =
      { stdout := [w.version], stderr := [], state := none, records := [],
        serverInvoked := false, exitCode := 0 } := by
  simp [main, hp, ArgMatches.args_present, hv]

/-- Witness for C3 on the argument list `-v --stdio` (version flag
together with another recognized flag). -/
theorem version_short_circuit_witness :
    main { version := ("1.2.3"), env := [], openRes := fun _ => none,
           serverResult := Except.ok () } [("-v"), ("--stdio")] =
      { stdout := [("1.2.3")], stderr := [], state := none, records := [],
        serverInvoked := false, exitCode := 0 } :=
  version_short_circuit
    { version := ("1.2.3"), env := [], openRes := fun _ => none,
      serverResult := Except.ok () }
    [("-v"), ("--stdio")]
    { stdio := true, version := true, log := none, log_file := none, log_level := none }
    rfl rfl

/-- Claim C4: on the non-version path, a successful server outcome makes
`main` submit the informational shutdown record and exit 0, and a failed
outcome makes it submit an error record carrying the failure text and
exit 1; the version path exits 0. -/
theorem exit_outcome_mapping (w : World) (argv : List String) (m : ArgMatches)
    (hp : parseArgs argv = Except.ok m) :
    (m.version = true → (main w argv).exitCode = 0) ∧
    (m.version = false →
      ((∀ u, w.serverResult = Except.ok u →
          (Level.INFO, Record.shutdownOk) ∈ (main w argv).records ∧
            (main w argv).exitCode = 0) ∧
       (∀ e, w.serverResult = Except.error e →
          (Level.ERROR, Record.serverFailed e) ∈ (main w argv).records ∧
            (main w argv).exitCode = 1))) := by
  constructor
  · intro hv
    simp [main, hp, ArgMatches.args_present, hv]
  · intro hv
    constructor
    · intro u hu
      simp [main, hp, ArgMatches.args_present, hv, hu]
    · intro e he
      simp [main, hp, ArgMatches.args_present, hv, he]

/-- Witness for C4 on the empty argument list with a successful server
outcome. -/
theorem exit_outcome_mapping_witness :
    (Level.INFO, Record.shutdownOk) ∈
      (main { version := ("1.2.3"), env := [], openRes := fun _ => none,
              serverResult := Except.ok () } []).records ∧
    (main { version := ("1.2.3"), env := [], openRes := fun _ => none,
            serverResult := Except.ok () } []).exitCode = 0 :=
  ((exit_outcome_mapping
      { version := ("1.2.3"), env := [], openRes := fun _ => none,
        serverResult := Except.ok () }
      [] ArgMatches.init rfl).2 rfl).1 () rfl

/-- Counterexample to claim C5 as stated: on the argument list
`--bogus` the clap parser rejects the invocation, so startup is
interrupted and the delegated server is never invoked (the process exits
with clap's status 2) even though no log-file open failure occurred. -/
theorem unknown_argument_interrupts_startup :
    (main { version := ("1.0.0"), env := [], openRes := fun _ => none,
            serverResult := Except.ok () } [("--bogus")]).serverInvoked = false ∧
    (main { version := ("1.0.0"), env := [], openRes := fun _ => none,
            serverResult := Except.ok () } [("--bogus")]).exitCode = 2 :=
  ⟨rfl, rfl⟩

/-- Claim C5 (amended): on every argument list the parser accepts and
that does not request the version, the run always reaches the delegated
server, the exit status is decided only by the server's outcome, and a
log-file open failure only makes the subscriber fall back to the
standard-error writer with a user-visible warning on stderr. -/
theorem startup_errors_contained (w : World) (argv : List String) (m : ArgMatches)
    (hp : parseArgs argv = Except.ok m) (hv : m.version = false) :
    (main w argv).serverInvoked = true ∧
    (main w argv).exitCode =
      (match w.serverResult with
       | Except.ok _ => 0
       | Except.error _ => 1) ∧
    (∀ p e, resolve_log_file m = some p → w.openRes p = some e →
      (main w argv).state =
        some { writer := Writer.stderr,
               filter := EnvFilter.empty.add_directive
                 (Directive.level (resolve_level (resolve_log_level m)).1),
               with_target := false, with_thread_ids := true, with_level := true } ∧
      (("Failed to open log file \x27") ++ p ++ ("\x27: ") ++ e ++
          (". Falling back to stderr.")) ∈ (main w argv).stderr) := by
  rcases hres : w.serverResult with u | e
  · refine ⟨?_, ?_, ?_⟩
    · simp [main, hp, ArgMatches.args_present, hv, hres]
    · simp [main, hp, ArgMatches.args_present, hv, hres]
    · intro p e hpf hoe
      constructor
      · simp [main, hp, ArgMatches.args_present, hv, hres, setup_logging, open_log_file,
          hpf, hoe]
      · simp [main, hp, ArgMatches.args_present, hv, hres, setup_logging, open_log_file,
          hpf, hoe]
  · refine ⟨?_, ?_, ?_⟩
    · simp [main, hp, ArgMatches.args_present, hv, hres]
    · simp [main, hp, ArgMatches.args_present, hv, hres]
    · intro p e2 hpf hoe
      constructor
      · simp [main, hp, ArgMatches.args_present, hv, hres, setup_logging, open_log_file,
          hpf, hoe]
      · simp [main, hp, ArgMatches.args_present, hv, hres, setup_logging, open_log_file,
          hpf, hoe]

/-- Witness for the amended C5 on `--log-file /root/x.log` with a world
whose filesystem refuses to open the file. -/
theorem startup_errors_contained_witness :
    (main { version := ("1.0.0"), env := [], openRes := fun _ => some ("denied"),
            serverResult := Except.ok () } [("--log-file"), ("/root/x.log")]).serverInvoked
        = true ∧
    (("Failed to open log file \x27") ++ ("/root/x.log") ++ ("\x27: ") ++ ("denied") ++
        (". Falling back to stderr.")) ∈
      (main { version := ("1.0.0"), env := [], openRes := fun _ => some ("denied"),
              serverResult := Except.ok () } [("--log-file"), ("/root/x.log")]).stderr :=
  ⟨(startup_errors_contained
      { version := ("1.0.0"), env := [], openRes := fun _ => some ("denied"),
        serverResult := Except.ok () }
      [("--log-file"), ("/root/x.log")]
      { stdio := false, version := false, log := none, log_file := some ("/root/x.log"),
        log_level := none }
      rfl rfl).1,
   ((startup_errors_contained
      { version := ("1.0.0"), env := [], openRes := fun _ => some ("denied"),
        serverResult := Except.ok () }
      [("--log-file"), ("/root/x.log")]
      { stdio := false, version := false, log := none, log_file := some ("/root/x.log"),
        log_level := none }
      rfl rfl).2.2 ("/root/x.log") ("denied") rfl rfl).2⟩

/-- Claim C6: the empty argument list parses successfully to the
all-unset matches, which resolve to no log destination and no severity
argument, so the installed subscriber writes to stderr with the `INFO`
severity directive, and the stdio transport flag is not forced. -/
theorem empty_args_default_resolution (env : List (String × String))
    (openRes : String → Option String) :
    parseArgs [] = Except.ok ArgMatches.init ∧
    ArgMatches.init.stdio = false ∧
    resolve_log_file ArgMatches.init = none ∧
    resolve_log_level ArgMatches.init = none ∧
    (setup_logging env openRes none none none).state =
      some { writer := Writer.stderr,
             filter := EnvFilter.empty.add_directive (Directive.level LevelFilter.INFO),
             with_target := false, with_thread_ids := true, with_level := true } ∧
    (setup_logging env openRes none none none).stderr = [] :=
  ⟨rfl, rfl, rfl, rfl, rfl, rfl⟩

/-- Claim C7: the argument list `--log` (deprecated switch, no value, no
dedicated options) resolves the destination to the fixed default file
name `beancount-language-server.log` and the severity to unset, which
the logging initializer maps to `INFO`. -/
theorem deprecated_log_presence_resolution :
    parseArgs [("--log")] =
      Except.ok
        { stdio := false, version := false, log := some none, log_file := none,
          log_level := none } ∧
    resolve_log_file
        { stdio := false, version := false, log := some none, log_file := none,
          log_level := none } = some default_log_file ∧
    default_log_file = ("beancount-language-server.log") ∧
    resolve_log_level
        { stdio := false, version := false, log := some none, log_file := none,
          log_level := none } = none ∧
    resolve_level none = (LevelFilter.INFO, []) :=
  ⟨rfl, rfl, rfl, rfl, rfl⟩

/-- Claim C8: when a subscriber is already installed, a second run of
`setup_logging` leaves the installed subscriber exactly as it was (no
corruption, no duplicate installation) and its `.init()` call panics
rather than silently reinstalling — error semantics, never a silent
second installation. -/
theorem subscriber_install_guarded (env : List (String × String))
    (openRes : String → Option String) (s : Subscriber)
    (log_file : Option String) (log_level_arg : Option String) :
    (setup_logging env openRes (some s) log_file log_level_arg).state = some s ∧
    (setup_logging env openRes (some s) log_file log_level_arg).panicked = true :=
  ⟨rfl, rfl⟩

/-- Claim C10: the subscriber `setup_logging` installs is independent of
the process environment (in particular of `RUST_LOG`), because the
filter is `EnvFilter::default()` — which reads nothing — plus the single
directive derived from the command-line severity. -/
theorem severity_filter_independent_of_environment
    (env1 env2 : List (String × String)) (openRes : String → Option String)
    (st : Option Subscriber) (log_file : Option String) (log_level_arg : Option String) :
    setup_logging env1 openRes st log_file log_level_arg =
      setup_logging env2 openRes st log_file log_level_arg ∧
    (∃ wr, (setup_logging env1 openRes none log_file log_level_arg).state =
      some { writer := wr,
             filter := EnvFilter.empty.add_directive
               (Directive.level (resolve_level log_level_arg).1),
             with_target := false, with_thread_ids := true, with_level := true }) :=
  ⟨rfl, ⟨_, rfl⟩⟩

end Lsp

/-- Claim C9: the Python-callable forwarder behaves identically to the
standalone entry point — it runs the same orchestration on the
host-supplied argument list and returns `Ok` of the same integer status
the standalone process would exit with, with the same observable
effects. -/
theorem pylsp_main_refines_entry_point (w : Lsp.World) (args : List String) :
    Pylsp.main w args = Except.ok (Int.ofNat (Lsp.main w args).exitCode) ∧
    BeancountLanguageServer.main w args = Lsp.main w args :=
  ⟨rfl, rfl⟩
